import Mathlib

/-!
Verification of the fintrack ledger module: a shallow embedding of the
Account/Transaction aggregate (internal/modules/ledger/domain.go, the
revision that uses the shared error sentinels and an injected clock), of
the ledger service (service.go) and of the PostgreSQL account repository
(the revision with the upsert / delete / bulk-insert save pipeline),
together with theorems settling the specification claims.

Modelling conventions:
  * Go strings are lists of runes (`GoStr`); `len` on a Go string is the
    UTF-8 byte length (`byteLen`), `utf8.RuneCountInString` is the list
    length (`runeCount`), and `strings.TrimSpace(s) == ""` is `isBlank`.
  * `uuid.UUID` values are opaque naturals; `uuid.New()` results are passed
    in as explicit `freshID` arguments.
  * `time.Time` instants are integers; `t.After(u)` is `t > u`; a
    `*time.Time` is an `Option Int`; `clock.Now()` is an explicit `now`.
  * Go methods that mutate their receiver and return `error` become
    functions returning `Except GoErr Account`: the `ok` branch carries the
    updated aggregate.  Every mutator of the source checks its guards
    before the first write to the receiver, so an error outcome leaves the
    receiver exactly as it was; the embedding reflects this by returning no
    state in the error branch.
  * `int64` amounts are unbounded integers: the only operation performed on
    them in the embedded code is addition and comparison, and no claim
    depends on wrap-around behaviour.
-/

deriving instance DecidableEq for Except

namespace Fintrack

/-- Go strings, modelled as their list of runes. -/
abbrev GoStr := List Char

/-- The whitespace predicate of Go's `unicode.IsSpace`: the Unicode
White_Space property, i.e. tab, newline, vertical tab, form feed, carriage
return, space, NEL, NBSP, OGHAM SPACE MARK, the EN QUAD..HAIR SPACE block,
LINE SEPARATOR, PARAGRAPH SEPARATOR, NARROW NBSP, MEDIUM MATHEMATICAL
SPACE and IDEOGRAPHIC SPACE. -/
def isGoSpace (c : Char) : Bool :=
  c = ' ' || c = '\t' || c = '\n' || c = '\x0b' || c = '\x0c' || c = '\r' ||
  c = '\x85' || c = '\xa0' || c = '\u1680' ||
  (0x2000 ≤ c.val && c.val ≤ 0x200a) ||
  c = '\u2028' || c = '\u2029' || c = '\u202f' || c = '\u205f' ||
  c = '\u3000'

/-- `strings.TrimSpace(s) == ""`: every rune of `s` is whitespace. -/
def isBlank (s : GoStr) : Bool :=
  s.all isGoSpace

/-- UTF-8 byte width of a rune, as Go encodes it. -/
def utf8Size (c : Char) : Nat :=
  if c.val < 0x80 then 1
  else if c.val < 0x800 then 2
  else if c.val < 0x10000 then 3
  else 4

/-- Go `len(s)` for a string: its UTF-8 byte length. -/
def byteLen (s : GoStr) : Nat :=
  (s.map utf8Size).sum

/-- Go `utf8.RuneCountInString(s)`. -/
def runeCount (s : GoStr) : Nat :=
  s.length

/-- The wrapping sites of the embedded code: each `fmt.Errorf` context that
wraps an underlying error is identified by the operation that produced it. -/
inductive WrapSite
  | failedToFindAccountByID
  | failedToFindAccount
  | failedToFindTransactionsForAccount
  | failedToBeginTx
  | failedToCommitTx
  | failedToUpsertAccount
  | failedToDeleteTransactionsForAccount
  | failedToBulkInsertTransactions
  deriving DecidableEq, Repr

/-- The error values of the ledger package: the package-level sentinels of
domain.go and the repository, the length-limit errors built with
`fmt.Errorf`, database-level errors, and wrapped errors (`fmt.Errorf` with
a cause). -/
inductive GoErr
  | accountArchived
  | accountNotArchived
  | transactionNotFound
  | transactionAlreadyPaid
  | transactionAlreadyUnpaid
  | paymentDateInFuture
  | amountCannotBeZero
  | descriptionRequired
  | accountNameRequired
  | inconsistentAmountSign
  | invalidTransactionType
  | accountNotFound
  | nameTooLong
  | descriptionTooLong
  | observationTooLong
  | scanFailed
  | dbFailure (code : Nat)
  | wrap (site : WrapSite) (cause : GoErr)
  deriving DecidableEq, Repr

/-- Go `errors.Is`: the target is compared against the error and every
element of its unwrap chain. -/
def errorsIs : GoErr → GoErr → Bool
  | GoErr.wrap s c, t => (GoErr.wrap s c = t) || errorsIs c t
  | e, t => e = t

namespace Ledger

/-- Transaction types are Go strings; the valid ones are the three
constants below. -/
abbrev TransactionType := GoStr

def Income : TransactionType := "INCOME".toList
def Expense : TransactionType := "EXPENSE".toList
def Adjustment : TransactionType := "ADJUSTMENT".toList

def maxAccountNameLength : Nat := 100
def maxTransactionDescriptionLength : Nat := 100
def maxTransactionObservationLength : Nat := 2500

/-- domain.go `Transaction`: a single financial entry in an account. -/
structure Transaction where
  id : Nat
  type : TransactionType
  description : GoStr
  observation : GoStr
  amount : Int
  dueDate : Int
  paidAt : Option Int
  deriving DecidableEq, Repr

/-- domain.go `Account`: the aggregate root holding the transactions. -/
structure Account where
  id : Nat
  userID : Nat
  name : GoStr
  transactions : List Transaction
  archivedAt : Option Int
  deriving DecidableEq, Repr

/-- `paidAt != nil && paidAt.After(now)`. -/
def paidAtInFuture (paidAt : Option Int) (now : Int) : Bool :=
  match paidAt with
  | some p => p > now
  | none => false

/-- domain.go `Account.AddTransaction`: validates archived state,
description, observation, amount, type, sign and payment date in that
order, then appends a transaction carrying the freshly generated id. -/
def Account.addTransaction (a : Account) (txType : TransactionType)
    (description observation : GoStr) (amount : Int) (dueDate : Int)
    (paidAt : Option Int) (now : Int) (freshID : Nat) : Except GoErr Account :=
  if a.archivedAt.isSome then .error .accountArchived
  else if isBlank description then .error .descriptionRequired
  else if byteLen description > maxTransactionDescriptionLength then .error .descriptionTooLong
  else if !isBlank observation && runeCount observation > maxTransactionObservationLength then
    .error .observationTooLong
  else if amount = 0 then .error .amountCannotBeZero
  else if !(txType = Income || txType = Expense || txType = Adjustment) then
    .error .invalidTransactionType
  else if (txType = Income && amount < 0) || (txType = Expense && amount > 0) then
    .error .inconsistentAmountSign
  else if paidAtInFuture paidAt now then .error .paymentDateInFuture
  else .ok { a with transactions := a.transactions ++
      [{ id := freshID, type := txType, description := description,
         observation := observation, amount := amount, dueDate := dueDate,
         paidAt := paidAt }] }

/-- domain.go `Account.DeleteTransaction`: removes the first transaction
with the given id, or fails if the account is archived or no entry matches. -/
def Account.deleteTransaction (a : Account) (txID : Nat) : Except GoErr Account :=
  if a.archivedAt.isSome then .error .accountArchived
  else
    match a.transactions.findIdx? (fun tx => tx.id = txID) with
    | none => .error .transactionNotFound
    | some i => .ok { a with transactions := a.transactions.eraseIdx i }

/-- domain.go `Account.RealBalance`: folds the amounts of the transactions
whose `PaidAt` is set and not after `clock.Now()`. -/
def Account.realBalance (a : Account) (now : Int) : Int :=
  a.transactions.foldl
    (fun total tx =>
      match tx.paidAt with
      | some p => if p > now then total else total + tx.amount
      | none => total)
    0

/-- domain.go `Account.ProjectedBalance`: folds the amounts of all
transactions. -/
def Account.projectedBalance (a : Account) : Int :=
  a.transactions.foldl (fun total tx => total + tx.amount) 0

/-- The update performed by `MarkTransactionAsPaid` through the pointer
returned by `findTransaction`: the first transaction with the given id is
updated; already-paid entries are rejected. -/
def markPaidAux (txs : List Transaction) (txID : Nat) (paidAt : Int) :
    Except GoErr (List Transaction) :=
  match txs with
  | [] => .error .transactionNotFound
  | tx :: rest =>
    if tx.id = txID then
      if tx.paidAt.isSome then .error .transactionAlreadyPaid
      else .ok ({ tx with paidAt := some paidAt } :: rest)
    else
      (markPaidAux rest txID paidAt).map (tx :: ·)

/-- domain.go `Account.MarkTransactionAsPaid`. -/
def Account.markTransactionAsPaid (a : Account) (txID : Nat) (paidAt : Int)
    (now : Int) : Except GoErr Account :=
  if a.archivedAt.isSome then .error .accountArchived
  else if paidAt > now then .error .paymentDateInFuture
  else (markPaidAux a.transactions txID paidAt).map
    (fun txs => { a with transactions := txs })

/-- The update performed by `MarkTransactionAsUnpaid` through the pointer
returned by `findTransaction`. -/
def markUnpaidAux (txs : List Transaction) (txID : Nat) :
    Except GoErr (List Transaction) :=
  match txs with
  | [] => .error .transactionNotFound
  | tx :: rest =>
    if tx.id = txID then
      if tx.paidAt.isNone then .error .transactionAlreadyUnpaid
      else .ok ({ tx with paidAt := none } :: rest)
    else
      (markUnpaidAux rest txID).map (tx :: ·)

/-- domain.go `Account.MarkTransactionAsUnpaid`. -/
def Account.markTransactionAsUnpaid (a : Account) (txID : Nat) :
    Except GoErr Account :=
  if a.archivedAt.isSome then .error .accountArchived
  else (markUnpaidAux a.transactions txID).map
    (fun txs => { a with transactions := txs })

/-- domain.go `Account.Archive`. -/
def Account.archive (a : Account) (now : Int) : Except GoErr Account :=
  if a.archivedAt.isSome then .error .accountArchived
  else .ok { a with archivedAt := some now }

/-- domain.go `Account.Unarchive`. -/
def Account.unarchive (a : Account) : Except GoErr Account :=
  if a.archivedAt.isNone then .error .accountNotArchived
  else .ok { a with archivedAt := none }

end Ledger

namespace Repo

open Ledger (TransactionType Income Expense Adjustment)

/-- The domain `Transaction` of the repository's revision: part_007's
mappers read `ID, Type, Description, Observation, Amount, CategoryID,
DueDate, PaidAt` from it. -/
structure TransactionP where
  id : Nat
  type : TransactionType
  description : GoStr
  observation : GoStr
  amount : Int
  categoryID : Option Nat
  dueDate : Int
  paidAt : Option Int
  deriving DecidableEq, Repr

/-- The domain `Account` of the repository's revision: part_007's mappers
read `ID, UserID, Name, IncludeInOverallBalance, ArchivedAt` and the
transaction collection from it. -/
structure AccountP where
  id : Nat
  userID : Nat
  name : GoStr
  includeInOverallBalance : Bool
  transactions : List TransactionP
  archivedAt : Option Int
  deriving DecidableEq, Repr

/-- part_007 `accountModel`: the persistence model of an account row. -/
structure AccountModel where
  id : Nat
  userID : Nat
  name : GoStr
  includeInOverallBalance : Bool
  archivedAt : Option Int
  createdAt : Int
  updatedAt : Int
  deriving DecidableEq, Repr

/-- part_007 `transactionModel`: the persistence model of a transaction
row. -/
structure TransactionModel where
  id : Nat
  accountID : Nat
  userID : Nat
  categoryID : Option Nat
  type : TransactionType
  description : GoStr
  observation : GoStr
  amount : Int
  dueDate : Int
  paidAt : Option Int
  metadata : Option GoStr
  createdAt : Int
  updatedAt : Int
  deriving DecidableEq, Repr

/-- A stored `accounts` row (schema: id, user_id, name,
include_in_overall_balance, archived_at, created_at, updated_at). -/
structure AccountRow where
  id : Nat
  userID : Nat
  name : GoStr
  includeInOverallBalance : Bool
  archivedAt : Option Int
  createdAt : Int
  updatedAt : Int
  deriving DecidableEq, Repr

/-- A stored `transactions` row (schema: id, account_id, user_id,
category_id, type, description, observation, amount_in_cents, due_date,
paid_at, metadata, created_at, updated_at). -/
structure TransactionRow where
  id : Nat
  accountID : Nat
  userID : Nat
  categoryID : Option Nat
  type : TransactionType
  description : GoStr
  observation : GoStr
  amountInCents : Int
  dueDate : Int
  paidAt : Option Int
  metadata : Option GoStr
  createdAt : Int
  updatedAt : Int
  deriving DecidableEq, Repr

/-- The database state visible to the repository. -/
structure Db where
  accounts : List AccountRow
  transactions : List TransactionRow
  deriving DecidableEq, Repr

def emptyDb : Db := { accounts := [], transactions := [] }

/-- part_007 `toAccountPersistence`: maps a domain account to its
persistence model; `CreatedAt` and `UpdatedAt` are left at their Go zero
values (they are not used by the upsert). -/
def toAccountPersistence (a : AccountP) : AccountModel :=
  { id := a.id, userID := a.userID, name := a.name,
    includeInOverallBalance := a.includeInOverallBalance,
    archivedAt := a.archivedAt, createdAt := 0, updatedAt := 0 }

/-- part_007 `toTransactionPersistence`: maps a domain transaction to its
persistence model; `Metadata` is set to nil. -/
def toTransactionPersistence (tx : TransactionP) (accountID userID : Nat) :
    TransactionModel :=
  { id := tx.id, accountID := accountID, userID := userID,
    categoryID := tx.categoryID, type := tx.type,
    description := tx.description, observation := tx.observation,
    amount := tx.amount, dueDate := tx.dueDate, paidAt := tx.paidAt,
    metadata := none, createdAt := 0, updatedAt := 0 }

/-- part_007 `toTransactionDomain`: the Go composite literal sets only
`ID, Type, Description, Observation, Amount, DueDate, PaidAt`; the
`CategoryID` field of the domain transaction is omitted and therefore takes
its zero value (nil). -/
def toTransactionDomain (m : TransactionModel) : TransactionP :=
  { id := m.id, type := m.type, description := m.description,
    observation := m.observation, amount := m.amount,
    categoryID := none, dueDate := m.dueDate, paidAt := m.paidAt }

/-- part_007 `toAccountDomain`: the Go composite literal sets only
`ID, UserID, Name, ArchivedAt, transactions`; the
`IncludeInOverallBalance` field of the domain account is omitted and
therefore takes its zero value (false). -/
def toAccountDomain (m : AccountModel) (txsModels : List TransactionModel) :
    AccountP :=
  { id := m.id, userID := m.userID, name := m.name,
    includeInOverallBalance := false,
    transactions := txsModels.map toTransactionDomain,
    archivedAt := m.archivedAt }

/-- The database steps executed during `Save`, used to inject failures of
the underlying store. -/
inductive Step
  | beginTx
  | upsert
  | deleteTxs
  | insertTxs
  | commit
  deriving DecidableEq, Repr

/-- A failure oracle: for each step, the error the database driver returns
there, if any. -/
abbrev Oracle := Step → Option GoErr

/-- The oracle under which every database step succeeds. -/
def noFail : Oracle := fun _ => none

/-- The state effect of part_007 `Querier.upsertAccount`:
`INSERT ... ON CONFLICT (id) DO UPDATE SET name, include_in_overall_balance,
archived_at, updated_at = now()`.  A conflicting row keeps its `user_id` and
`created_at`; a fresh row gets `created_at` and `updated_at` from the
column defaults `NOW()`. -/
def upsertAccountPure (db : Db) (now : Int) (m : AccountModel) : Db :=
  if db.accounts.any (fun r => r.id = m.id) then
    { db with accounts := db.accounts.map (fun r =>
        if r.id = m.id then
          { r with name := m.name,
                   includeInOverallBalance := m.includeInOverallBalance,
                   archivedAt := m.archivedAt,
                   updatedAt := now }
        else r) }
  else
    { db with accounts := db.accounts ++
        [{ id := m.id, userID := m.userID, name := m.name,
           includeInOverallBalance := m.includeInOverallBalance,
           archivedAt := m.archivedAt, createdAt := now, updatedAt := now }] }

/-- part_007 `Querier.upsertAccount`, with driver failures injected by the
oracle and wrapped as in the source. -/
def upsertAccount (fail : Oracle) (db : Db) (now : Int) (m : AccountModel) :
    Except GoErr Db :=
  match fail .upsert with
  | some e => .error (.wrap .failedToUpsertAccount e)
  | none => .ok (upsertAccountPure db now m)

/-- part_007 `Querier.deleteTransactionsForAccount`:
`DELETE FROM transactions WHERE account_id = $1`. -/
def deleteTransactionsForAccount (fail : Oracle) (db : Db) (accountID : Nat) :
    Except GoErr Db :=
  match fail .deleteTxs with
  | some e => .error (.wrap .failedToDeleteTransactionsForAccount e)
  | none => .ok { db with transactions :=
      db.transactions.filter (fun t => !(t.accountID = accountID)) }

/-- The row inserted for one transaction by the bulk insert: the column
list omits `metadata`, `created_at` and `updated_at`, so `metadata` is NULL
and the timestamps take the `NOW()` defaults. -/
def insertedRow (now : Int) (accountID userID : Nat) (tx : TransactionP) :
    TransactionRow :=
  let m := toTransactionPersistence tx accountID userID
  { id := m.id, accountID := m.accountID, userID := m.userID,
    categoryID := m.categoryID, type := m.type, description := m.description,
    observation := m.observation, amountInCents := m.amount,
    dueDate := m.dueDate, paidAt := m.paidAt, metadata := none,
    createdAt := now, updatedAt := now }

/-- part_007 `Querier.bulkInsertTransactions`: returns nil immediately on
an empty slice, otherwise sends one batch whose failure is injected by the
oracle. -/
def bulkInsertTransactions (fail : Oracle) (db : Db) (now : Int)
    (accountID userID : Nat) (transactions : List TransactionP) :
    Except GoErr Db :=
  if transactions.isEmpty then .ok db
  else
    match fail .insertTxs with
    | some e => .error (.wrap .failedToBulkInsertTransactions e)
    | none =>
      let rows := transactions.map (insertedRow now accountID userID)
      .ok { db with transactions := db.transactions ++ rows }

/-- part_007 `PostgresAccountRepository.ExecTx`: begins a transaction, runs
the body, rolls back (restoring the pre-transaction state) and propagates
the body's error on failure, otherwise commits.  The pair returned is the
call's result and the database state visible after the call. -/
def ExecTx (fail : Oracle) (db : Db) (body : Db → Except GoErr Db) :
    Except GoErr Unit × Db :=
  match fail .beginTx with
  | some e => (.error (.wrap .failedToBeginTx e), db)
  | none =>
    match body db with
    | .error e => (.error e, db)
    | .ok db1 =>
      match fail .commit with
      | some e => (.error (.wrap .failedToCommitTx e), db)
      | none => (.ok (), db1)

/-- part_007 `PostgresAccountRepository.Save`: inside one transaction,
upsert the account row, delete all child transaction rows, bulk-insert the
in-memory transaction set. -/
def Save (fail : Oracle) (db : Db) (now : Int) (account : AccountP) :
    Except GoErr Unit × Db :=
  ExecTx fail db (fun d => do
    let accModel := toAccountPersistence account
    let d1 ← upsertAccount fail d now accModel
    let d2 ← deleteTransactionsForAccount fail d1 accModel.id
    let d3 ← bulkInsertTransactions fail d2 now account.id account.userID
      account.transactions
    pure d3)

/-- part_007 `Querier.getAccountByID`: `QueryRow ... WHERE id = $1`; the
row with the primary key, or `ErrAccountNotFound` when no row matches. -/
def getAccountByID (db : Db) (accountID : Nat) : Except GoErr AccountModel :=
  match db.accounts.find? (fun r => r.id = accountID) with
  | none => .error .accountNotFound
  | some r =>
    .ok { id := r.id, userID := r.userID, name := r.name,
          includeInOverallBalance := r.includeInOverallBalance,
          archivedAt := r.archivedAt, createdAt := r.createdAt,
          updatedAt := r.updatedAt }

/-- Stable insertion of a row into a list sorted by `due_date` ascending. -/
def insertByDue (t : TransactionRow) : List TransactionRow → List TransactionRow
  | [] => [t]
  | u :: us => if t.dueDate < u.dueDate then t :: u :: us else u :: insertByDue t us

/-- `ORDER BY due_date ASC` as a stable sort. -/
def sortByDue (l : List TransactionRow) : List TransactionRow :=
  l.foldr insertByDue []

/-- An abstraction of the raw wire bytes of a timestamptz value, as
received by a `[]byte` scan destination. -/
def rawTimeBytes (t : Int) : GoStr :=
  (toString t).toList

/-- part_007's row scan in `getTransactionsByAccountID`.  The SELECT lists
the columns `..., due_date, metadata, paid_at, created_at, updated_at` but
the Scan destinations are `..., &DueDate, &PaidAt, &Metadata, &CreatedAt,
&UpdatedAt`: the `metadata` column lands in the `PaidAt` field and the
`paid_at` column lands in the `Metadata` field.  A NULL scans into either
destination as nil; a non-NULL jsonb value cannot be decoded into a
`*time.Time` and fails the scan; a non-NULL timestamptz lands in the
`[]byte` destination as its raw bytes. -/
def scanTransactionRow (r : TransactionRow) : Except GoErr TransactionModel :=
  match r.metadata with
  | some _ => .error .scanFailed
  | none =>
    .ok { id := r.id, accountID := r.accountID, userID := r.userID,
          categoryID := r.categoryID, type := r.type,
          description := r.description, observation := r.observation,
          amount := r.amountInCents, dueDate := r.dueDate,
          paidAt := none,
          metadata := r.paidAt.map rawTimeBytes,
          createdAt := r.createdAt, updatedAt := r.updatedAt }

/-- part_007 `Querier.getTransactionsByAccountID`: all rows of the account
ordered by due date ascending, scanned row by row (failing fast on a scan
error). -/
def getTransactionsByAccountID (db : Db) (accountID : Nat) :
    Except GoErr (List TransactionModel) :=
  (sortByDue (db.transactions.filter (fun t => t.accountID = accountID))).mapM
    scanTransactionRow

/-- part_007 `PostgresAccountRepository.FindByID`: fetches the account row,
then its transactions, and rehydrates the aggregate. -/
def FindByID (db : Db) (accountID : Nat) : Except GoErr AccountP :=
  match getAccountByID db accountID with
  | .error e => .error (.wrap .failedToFindAccount e)
  | .ok accModel =>
    match getTransactionsByAccountID db accountID with
    | .error e => .error (.wrap .failedToFindTransactionsForAccount e)
    | .ok txModels => .ok (toAccountDomain accModel txModels)

/-- service.go `Service.FindAccountByID`: fetch by id, then compare the
owner; a mismatch is surfaced as the account-not-found sentinel. -/
def FindAccountByID (db : Db) (userID accountID : Nat) :
    Except GoErr AccountP :=
  match FindByID db accountID with
  | .error e => .error (.wrap .failedToFindAccountByID e)
  | .ok account =>
    if account.userID ≠ userID then .error .accountNotFound
    else .ok account

end Repo

namespace LedgerMem

open Ledger (TransactionType)

/-- A transaction value as stored in memory: the `PaidAt` field is a
pointer (`*time.Time`), i.e. either nil or the location of a time cell. -/
structure TxM where
  id : Nat
  type : TransactionType
  description : GoStr
  observation : GoStr
  amount : Int
  dueDate : Int
  paidAt : Option Nat
  deriving DecidableEq, Repr

/-- The mutable memory relevant to the aggregate: the backing arrays of
`[]Transaction` slices (indexed by location) and the contents of
`time.Time` cells reached through `PaidAt` pointers. -/
structure MemState where
  arrays : Nat → List TxM
  times : Nat → Int

/-- An account whose transaction slice is a reference into `arrays`. -/
structure AccountM where
  id : Nat
  userID : Nat
  name : GoStr
  txRef : Nat
  archivedAt : Option Int

/-- domain.go `Account.Transactions` under the memory model: `make` a
fresh backing array, `copy` the transaction structs into it (the struct
copy shares the `PaidAt` pointers), and return the new slice. -/
def transactionsCall (s : MemState) (a : AccountM) (fresh : Nat) :
    MemState × Nat :=
  ({ s with arrays := fun l => if l = fresh then s.arrays a.txRef else s.arrays l },
   fresh)

/-- domain.go `Account.RealBalance` under the memory model: a transaction
contributes when its `PaidAt` pointer is non-nil and the pointed-to time is
not after `now`. -/
def realBalanceM (s : MemState) (a : AccountM) (now : Int) : Int :=
  (s.arrays a.txRef).foldl
    (fun total tx =>
      match tx.paidAt with
      | some loc => if s.times loc > now then total else total + tx.amount
      | none => total)
    0

/-- domain.go `Account.ProjectedBalance` under the memory model. -/
def projectedBalanceM (s : MemState) (a : AccountM) : Int :=
  (s.arrays a.txRef).foldl (fun total tx => total + tx.amount) 0

/-- A caller's write of a transaction struct into slot `i` of a returned
slice (e.g. `txs[i] = tx` or a field assignment on `txs[i]`). -/
def writeSliceElem (s : MemState) (ref i : Nat) (tx : TxM) : MemState :=
  { s with arrays := fun l => if l = ref then (s.arrays ref).set i tx else s.arrays l }

/-- A caller's write through a `*time.Time` pointer
(`*txs[i].PaidAt = t`). -/
def writeTime (s : MemState) (loc : Nat) (t : Int) : MemState :=
  { s with times := fun l => if l = loc then t else s.times l }

end LedgerMem

namespace Repo

/-- Following the spec's words for `Save`: the first failing step, in the
order begin-transaction, account-row upsert, child-row delete, bulk insert
(which only runs when the in-memory set is non-empty), commit, together
with the error that step produces.  `none` when every step succeeds. -/
def specFirstSaveError (fail : Oracle) (a : AccountP) : Option GoErr :=
  match fail .beginTx with
  | some e => some (.wrap .failedToBeginTx e)
  | none =>
    match fail .upsert with
    | some e => some (.wrap .failedToUpsertAccount e)
    | none =>
      match fail .deleteTxs with
      | some e => some (.wrap .failedToDeleteTransactionsForAccount e)
      | none =>
        match (if a.transactions.isEmpty then none else fail .insertTxs) with
        | some e => some (.wrap .failedToBulkInsertTransactions e)
        | none =>
          match fail .commit with
          | some e => some (.wrap .failedToCommitTx e)
          | none => none

/-- Following the spec's words for a successful `Save`: the account row is
upserted, all existing child rows of the account are deleted, and the
current in-memory transaction set is inserted. -/
def specCommittedDb (db : Db) (now : Int) (a : AccountP) : Db :=
  let afterUpsert := upsertAccountPure db now (toAccountPersistence a)
  { afterUpsert with transactions :=
      afterUpsert.transactions.filter (fun t => !(t.accountID = a.id)) ++
        a.transactions.map (insertedRow now a.id a.userID) }

/-- Following the spec's words for `Save` as a whole: atomically either the
first failing step's error is returned and the database is unchanged, or
every step succeeds and the committed state replaces the aggregate. -/
def specSave (fail : Oracle) (db : Db) (now : Int) (a : AccountP) :
    Except GoErr Unit × Db :=
  match specFirstSaveError fail a with
  | some e => (.error e, db)
  | none => (.ok (), specCommittedDb db now a)

/-- The account of the round-trip counterexample: included in the overall
balance and holding one unpaid transaction linked to a category. -/
def c1Tx : TransactionP :=
  { id := 3, type := Ledger.Income, description := "Salary".toList,
    observation := [], amount := 500, categoryID := some 7, dueDate := 10,
    paidAt := none }

def c1Account : AccountP :=
  { id := 1, userID := 2, name := "Checking".toList,
    includeInOverallBalance := true, transactions := [c1Tx],
    archivedAt := none }

/-- A stored account row owned by user 2, used to compare the
owned-by-someone-else lookup with the absent lookup. -/
def c4RowOther : AccountRow :=
  { id := 10, userID := 2, name := "Other".toList,
    includeInOverallBalance := true, archivedAt := none, createdAt := 0,
    updatedAt := 0 }

def c4DbOther : Db := { accounts := [c4RowOther], transactions := [] }

/-- `c4RowOther` as the account model produced by `getAccountByID`. -/
def c4Model : AccountModel :=
  { id := 10, userID := 2, name := "Other".toList,
    includeInOverallBalance := true, archivedAt := none, createdAt := 0,
    updatedAt := 0 }

/-- A stored row with the same id as `c1Account` but owner 2 and creation
stamp 33, used to witness owner immutability across `Save`. -/
def c10Row : AccountRow :=
  { id := 1, userID := 2, name := "Old".toList,
    includeInOverallBalance := false, archivedAt := none, createdAt := 33,
    updatedAt := 33 }

def c10Db : Db := { accounts := [c10Row], transactions := [] }

end Repo

namespace Ledger

/-- A sample transaction and account used to instantiate witnesses. -/
def sampleTx : Transaction :=
  { id := 1, type := Income, description := "Salary".toList,
    observation := [], amount := 500000, dueDate := 100, paidAt := some 100 }

def sampleAccount : Account :=
  { id := 1, userID := 2, name := "Checking".toList,
    transactions := [sampleTx], archivedAt := none }

/-- `sampleAccount` after archiving. -/
def archivedAccount : Account :=
  { sampleAccount with archivedAt := some 50 }

/-- An observation of 2501 whitespace runes: longer than the documented
limit, yet blank after trimming. -/
def blankObservation : GoStr :=
  List.replicate 2501 ' '

/-- The settled predicate of the spec: `PaidAt` is set and not after `now`. -/
def settledBy (now : Int) (tx : Transaction) : Bool :=
  match tx.paidAt with
  | some p => decide (p ≤ now)
  | none => false

end Ledger

namespace LedgerMem

/-- The memory-model counterexample: one transaction of amount 100 whose
`PaidAt` pointer refers to time cell 0. -/
def c9Tx : TxM :=
  { id := 1, type := Ledger.Income, description := "Salary".toList,
    observation := [], amount := 100, dueDate := 0, paidAt := some 0 }

def c9Mem : MemState :=
  { arrays := fun l => if l = 0 then [c9Tx] else [], times := fun _ => 0 }

def c9Account : AccountM :=
  { id := 1, userID := 2, name := "Checking".toList, txRef := 0,
    archivedAt := none }

/-- The memory state right after `c9Account.Transactions()` returned the
fresh slice at location 1. -/
def c9Copy : MemState := (transactionsCall c9Mem c9Account 1).1

/-- `c9Copy` after the caller overwrites element 0 of the returned slice
with an unrelated transaction struct. -/
def c9Mutated : MemState :=
  writeSliceElem c9Copy 1 0 { c9Tx with amount := 999, paidAt := none }

end LedgerMem

namespace Ledger

/-- Helper: the projected-balance fold is the plain sum of the amounts. -/
theorem foldl_amount_sum (l : List Transaction) (acc : Int) :
    l.foldl (fun total tx => total + tx.amount) acc =
      acc + (l.map (fun tx => tx.amount)).sum := by
  induction l generalizing acc with
  | nil => simp
  | cons tx rest ih => simp [List.foldl_cons, ih, add_assoc]

/-- Helper: the real-balance fold is the sum of amounts over settled
transactions. -/
theorem foldl_real_sum (now : Int) (l : List Transaction) (acc : Int) :
    l.foldl
      (fun total tx =>
        match tx.paidAt with
        | some p => if p > now then total else total + tx.amount
        | none => total)
      acc =
      acc + ((l.filter (settledBy now)).map (fun tx => tx.amount)).sum := by
  induction l generalizing acc with
  | nil => simp
  | cons tx rest ih =>
    cases h : tx.paidAt with
    | none => simp [List.foldl_cons, List.filter_cons, settledBy, h, ih]
    | some p =>
      by_cases hp : p > now
      · have hle : ¬ (p ≤ now) := by omega
        simp [List.foldl_cons, List.filter_cons, settledBy, h, hp, hle, ih]
      · have hle : p ≤ now := by omega
        simp [List.foldl_cons, List.filter_cons, settledBy, h, hp, hle, ih,
          add_assoc]

/-- C2: for every account and every clock instant, `ProjectedBalance()` is
the sum of `Amount` over all transactions, and `RealBalance(clock)` is the
sum of `Amount` over exactly those transactions whose `PaidAt` is non-null
and not after `clock.Now()` (equality with `clock.Now()` included). -/
theorem balances_are_sums (a : Account) (now : Int) :
    a.projectedBalance = (a.transactions.map (fun tx => tx.amount)).sum ∧
    a.realBalance now =
      ((a.transactions.filter (settledBy now)).map (fun tx => tx.amount)).sum := by
  constructor
  · simpa using foldl_amount_sum a.transactions 0
  · simpa using foldl_real_sum now a.transactions 0

/-- C3: on an archived account each of the four mutators returns the
archived-account sentinel regardless of its other arguments.  Each embedded
mutator checks `ArchivedAt` before its first write to the receiver, so the
error outcome leaves the aggregate exactly as it was. -/
theorem archived_mutators_fail (a : Account) (t : Int)
    (h : a.archivedAt = some t) (txType : TransactionType) (d o : GoStr)
    (amount dueDate : Int) (paidAt : Option Int) (now : Int)
    (freshID txID : Nat) (pTime : Int) :
    a.addTransaction txType d o amount dueDate paidAt now freshID =
      .error .accountArchived ∧
    a.deleteTransaction txID = .error .accountArchived ∧
    a.markTransactionAsPaid txID pTime now = .error .accountArchived ∧
    a.markTransactionAsUnpaid txID = .error .accountArchived := by
  refine ⟨?_, ?_, ?_, ?_⟩ <;>
    simp [Account.addTransaction, Account.deleteTransaction,
      Account.markTransactionAsPaid, Account.markTransactionAsUnpaid, h]

/-- Helper: the success case of `AddTransaction`: when every check passes,
the result appends exactly one transaction carrying the supplied fresh
identity. -/
theorem addTransaction_ok (a : Account) (txType : TransactionType)
    (d o : GoStr) (amount dueDate : Int) (paidAt : Option Int) (now : Int)
    (freshID : Nat) (harch : a.archivedAt = none) (hd : isBlank d = false)
    (hlen : byteLen d ≤ maxTransactionDescriptionLength)
    (ho : isBlank o = true ∨ runeCount o ≤ maxTransactionObservationLength)
    (hz : amount ≠ 0)
    (htype : txType = Income ∨ txType = Expense ∨ txType = Adjustment)
    (hnsign : ¬((txType = Income ∧ amount < 0) ∨
      (txType = Expense ∧ amount > 0)))
    (hfut : paidAtInFuture paidAt now = false) :
    a.addTransaction txType d o amount dueDate paidAt now freshID =
      .ok { a with transactions := a.transactions ++
        [{ id := freshID, type := txType, description := d,
           observation := o, amount := amount, dueDate := dueDate,
           paidAt := paidAt }] } := by
  have hnlen : ¬ byteLen d > maxTransactionDescriptionLength := by omega
  have hobs : (!isBlank o && decide
      (runeCount o > maxTransactionObservationLength)) = false := by
    rcases ho with h | h
    · simp [h]
    · have : ¬ runeCount o > maxTransactionObservationLength := by omega
      simp [this]
  rcases htype with rfl | rfl | rfl
  · have hnlt : ¬ amount < 0 := fun hc => hnsign (Or.inl ⟨rfl, hc⟩)
    simp +decide [Account.addTransaction, harch, hd, hnlen, hobs, hz,
      hnlt, hfut, Income, Expense, Adjustment]
  · have hngt : ¬ amount > 0 := fun hc => hnsign (Or.inr ⟨rfl, hc⟩)
    simp +decide [Account.addTransaction, harch, hd, hnlen, hobs, hz,
      hngt, hfut, Income, Expense, Adjustment]
  · simp +decide [Account.addTransaction, harch, hd, hnlen, hobs, hz,
      hfut, Income, Expense, Adjustment]

/-- Helper: the length of the 2501-rune whitespace observation. -/
theorem blankObservation_length : blankObservation.length = 2501 :=
  List.length_replicate 2501 ' '

/-- C6: the error of `AddTransaction` is decided by the first failing check
in the order archived-check, description presence, description length,
observation length, non-zero amount, valid type, sign consistency, payment
date; on success exactly one transaction carrying the freshly generated
identity is appended. -/
theorem addTransaction_first_error_order (a : Account)
    (txType : TransactionType) (d o : GoStr) (amount dueDate : Int)
    (paidAt : Option Int) (now : Int) (freshID : Nat) :
    (a.archivedAt.isSome = true →
      a.addTransaction txType d o amount dueDate paidAt now freshID =
        .error .accountArchived) ∧
    (a.archivedAt = none → isBlank d = true →
      a.addTransaction txType d o amount dueDate paidAt now freshID =
        .error .descriptionRequired) ∧
    (a.archivedAt = none → isBlank d = false →
      byteLen d > maxTransactionDescriptionLength →
      a.addTransaction txType d o amount dueDate paidAt now freshID =
        .error .descriptionTooLong) ∧
    (a.archivedAt = none → isBlank d = false →
      byteLen d ≤ maxTransactionDescriptionLength → isBlank o = false →
      runeCount o > maxTransactionObservationLength →
      a.addTransaction txType d o amount dueDate paidAt now freshID =
        .error .observationTooLong) ∧
    (a.archivedAt = none → isBlank d = false →
      byteLen d ≤ maxTransactionDescriptionLength →
      (isBlank o = true ∨ runeCount o ≤ maxTransactionObservationLength) →
      amount = 0 →
      a.addTransaction txType d o amount dueDate paidAt now freshID =
        .error .amountCannotBeZero) ∧
    (a.archivedAt = none → isBlank d = false →
      byteLen d ≤ maxTransactionDescriptionLength →
      (isBlank o = true ∨ runeCount o ≤ maxTransactionObservationLength) →
      amount ≠ 0 → txType ≠ Income → txType ≠ Expense → txType ≠ Adjustment →
      a.addTransaction txType d o amount dueDate paidAt now freshID =
        .error .invalidTransactionType) ∧
    (a.archivedAt = none → isBlank d = false →
      byteLen d ≤ maxTransactionDescriptionLength →
      (isBlank o = true ∨ runeCount o ≤ maxTransactionObservationLength) →
      amount ≠ 0 →
      ((txType = Income ∧ amount < 0) ∨ (txType = Expense ∧ amount > 0)) →
      a.addTransaction txType d o amount dueDate paidAt now freshID =
        .error .inconsistentAmountSign) ∧
    (a.archivedAt = none → isBlank d = false →
      byteLen d ≤ maxTransactionDescriptionLength →
      (isBlank o = true ∨ runeCount o ≤ maxTransactionObservationLength) →
      amount ≠ 0 →
      (txType = Income ∨ txType = Expense ∨ txType = Adjustment) →
      ¬((txType = Income ∧ amount < 0) ∨ (txType = Expense ∧ amount > 0)) →
      paidAtInFuture paidAt now = true →
      a.addTransaction txType d o amount dueDate paidAt now freshID =
        .error .paymentDateInFuture) ∧
    (a.archivedAt = none → isBlank d = false →
      byteLen d ≤ maxTransactionDescriptionLength →
      (isBlank o = true ∨ runeCount o ≤ maxTransactionObservationLength) →
      amount ≠ 0 →
      (txType = Income ∨ txType = Expense ∨ txType = Adjustment) →
      ¬((txType = Income ∧ amount < 0) ∨ (txType = Expense ∧ amount > 0)) →
      paidAtInFuture paidAt now = false →
      a.addTransaction txType d o amount dueDate paidAt now freshID =
        .ok { a with transactions := a.transactions ++
          [{ id := freshID, type := txType, description := d,
             observation := o, amount := amount, dueDate := dueDate,
             paidAt := paidAt }] }) := by
  refine ⟨?_, ?_, ?_, ?_, ?_, ?_, ?_, ?_, ?_⟩
  · intro harch
    simp [Account.addTransaction, harch]
  · intro harch hd
    simp [Account.addTransaction, harch, hd]
  · intro harch hd hlen
    have hnle : ¬ byteLen d ≤ maxTransactionDescriptionLength := by omega
    simp [Account.addTransaction, harch, hd, hlen]
  · intro harch hd hlen ho hrc
    have hnlen : ¬ byteLen d > maxTransactionDescriptionLength := by omega
    simp [Account.addTransaction, harch, hd, hnlen, ho, hrc]
  · intro harch hd hlen ho hz
    have hnlen : ¬ byteLen d > maxTransactionDescriptionLength := by omega
    have hobs : (!isBlank o && decide
        (runeCount o > maxTransactionObservationLength)) = false := by
      rcases ho with h | h
      · simp [h]
      · have : ¬ runeCount o > maxTransactionObservationLength := by omega
        simp [this]
    simp [Account.addTransaction, harch, hd, hnlen, hobs, hz]
  · intro harch hd hlen ho hz h1 h2 h3
    have hnlen : ¬ byteLen d > maxTransactionDescriptionLength := by omega
    have hobs : (!isBlank o && decide
        (runeCount o > maxTransactionObservationLength)) = false := by
      rcases ho with h | h
      · simp [h]
      · have : ¬ runeCount o > maxTransactionObservationLength := by omega
        simp [this]
    simp [Account.addTransaction, harch, hd, hnlen, hobs, hz, h1, h2, h3]
  · intro harch hd hlen ho hz hsign
    have hnlen : ¬ byteLen d > maxTransactionDescriptionLength := by omega
    have hobs : (!isBlank o && decide
        (runeCount o > maxTransactionObservationLength)) = false := by
      rcases ho with h | h
      · simp [h]
      · have : ¬ runeCount o > maxTransactionObservationLength := by omega
        simp [this]
    rcases hsign with ⟨rfl, hlt⟩ | ⟨rfl, hgt⟩
    · simp [Account.addTransaction, harch, hd, hnlen, hobs, hz, hlt]
    · have : ¬ amount < 0 := by omega
      simp [Account.addTransaction, harch, hd, hnlen, hobs, hz, hgt, this,
        Expense, Income, Adjustment]
  · intro harch hd hlen ho hz htype hnsign hfut
    have hnlen : ¬ byteLen d > maxTransactionDescriptionLength := by omega
    have hobs : (!isBlank o && decide
        (runeCount o > maxTransactionObservationLength)) = false := by
      rcases ho with h | h
      · simp [h]
      · have : ¬ runeCount o > maxTransactionObservationLength := by omega
        simp [this]
    rcases htype with rfl | rfl | rfl
    · have hnlt : ¬ amount < 0 := fun hc => hnsign (Or.inl ⟨rfl, hc⟩)
      simp +decide [Account.addTransaction, harch, hd, hnlen, hobs, hz,
        hnlt, hfut, Income, Expense, Adjustment]
    · have hngt : ¬ amount > 0 := fun hc => hnsign (Or.inr ⟨rfl, hc⟩)
      simp +decide [Account.addTransaction, harch, hd, hnlen, hobs, hz,
        hngt, hfut, Income, Expense, Adjustment]
    · simp +decide [Account.addTransaction, harch, hd, hnlen, hobs, hz,
        hfut, Income, Expense, Adjustment]
  · intro harch hd hlen ho hz htype hnsign hfut
    exact addTransaction_ok a txType d o amount dueDate paidAt now freshID
      harch hd hlen ho hz htype hnsign hfut

/-- Witness for C6: on a live account a zero amount together with an
invalid type yields the zero-amount error (the non-zero-amount check runs
before the type check). -/
theorem addTransaction_first_error_order_witness :
    sampleAccount.addTransaction ("BOGUS".toList) ("x".toList) [] 0 0 none
      100 9 = .error .amountCannotBeZero :=
  (addTransaction_first_error_order sampleAccount ("BOGUS".toList)
    ("x".toList) [] 0 0 none 100 9).2.2.2.2.1 (by decide) (by decide)
    (by decide) (Or.inl (by decide)) rfl

/-- C7: on a live account that passes the earlier checks, an Income with a
negative amount or an Expense with a positive amount is rejected with the
inconsistent-sign sentinel (appending nothing, as the error branch carries
no state change), while an Adjustment is accepted with either sign. -/
theorem addTransaction_sign_invariant (a : Account) (d o : GoStr)
    (amount dueDate : Int) (paidAt : Option Int) (now : Int) (freshID : Nat)
    (harch : a.archivedAt = none) (hd : isBlank d = false)
    (hlen : byteLen d ≤ maxTransactionDescriptionLength)
    (ho : isBlank o = true ∨ runeCount o ≤ maxTransactionObservationLength)
    (hz : amount ≠ 0) :
    (amount < 0 →
      a.addTransaction Income d o amount dueDate paidAt now freshID =
        .error .inconsistentAmountSign) ∧
    (amount > 0 →
      a.addTransaction Expense d o amount dueDate paidAt now freshID =
        .error .inconsistentAmountSign) ∧
    (paidAtInFuture paidAt now = false →
      a.addTransaction Adjustment d o amount dueDate paidAt now freshID =
        .ok { a with transactions := a.transactions ++
          [{ id := freshID, type := Adjustment, description := d,
             observation := o, amount := amount, dueDate := dueDate,
             paidAt := paidAt }] }) := by
  have hnlen : ¬ byteLen d > maxTransactionDescriptionLength := by omega
  have hobs : (!isBlank o && decide
      (runeCount o > maxTransactionObservationLength)) = false := by
    rcases ho with h | h
    · simp [h]
    · have : ¬ runeCount o > maxTransactionObservationLength := by omega
      simp [this]
  refine ⟨?_, ?_, ?_⟩
  · intro hlt
    simp +decide [Account.addTransaction, harch, hd, hnlen, hobs, hz, hlt,
      Income, Expense, Adjustment]
  · intro hgt
    have hnlt : ¬ amount < 0 := by omega
    simp +decide [Account.addTransaction, harch, hd, hnlen, hobs, hz, hgt,
      hnlt, Income, Expense, Adjustment]
  · intro hfut
    refine addTransaction_ok a Adjustment d o amount dueDate paidAt now
      freshID harch hd hlen ho hz (Or.inr (Or.inr rfl)) ?_ hfut
    rintro (⟨h, _⟩ | ⟨h, _⟩) <;> exact absurd h (by decide)

/-- Witness for C7: a concrete negative Income is rejected with the
inconsistent-sign sentinel. -/
theorem addTransaction_sign_invariant_witness :
    sampleAccount.addTransaction Income ("x".toList) [] (-5) 0 none 100 9 =
      .error .inconsistentAmountSign :=
  (addTransaction_sign_invariant sampleAccount ("x".toList) [] (-5) 0 none
    100 9 (by decide) (by decide) (by decide) (Or.inl (by decide))
    (by decide)).1 (by decide)

/-- Helper: the 2501-rune whitespace observation is blank after trimming. -/
theorem blankObservation_isBlank : isBlank blankObservation = true := by
  simp only [isBlank, blankObservation, List.all_eq_true, List.mem_replicate]
  intro c hc
  rw [hc.2]
  decide

/-- C8 counterexample: an observation of 2501 whitespace runes exceeds the
2500-rune limit, yet `AddTransaction` accepts it and appends the
transaction, because the length check only runs when the observation is
non-blank after trimming. -/
theorem blank_observation_bypasses_limit :
    runeCount blankObservation = 2501 ∧
    sampleAccount.addTransaction Income ("x".toList) blankObservation 5 0
      none 100 9 =
      .ok { sampleAccount with transactions := sampleAccount.transactions ++
        [{ id := 9, type := Income, description := "x".toList,
           observation := blankObservation, amount := 5, dueDate := 0,
           paidAt := none }] } := by
  refine ⟨blankObservation_length, ?_⟩
  exact addTransaction_ok sampleAccount Income ("x".toList) blankObservation
    5 0 none 100 9 rfl (by decide) (by decide)
    (Or.inl blankObservation_isBlank) (by decide) (Or.inl rfl) (by decide)
    rfl

/-- C8 amended: the 2500-rune observation limit is enforced exactly for
observations that are non-blank after trimming; a blank observation never
produces the observation-length error, whatever its length. -/
theorem observation_limit_nonblank (a : Account) (txType : TransactionType)
    (d o : GoStr) (amount dueDate : Int) (paidAt : Option Int) (now : Int)
    (freshID : Nat) (harch : a.archivedAt = none) (hd : isBlank d = false)
    (hlen : byteLen d ≤ maxTransactionDescriptionLength) :
    (isBlank o = false → runeCount o > maxTransactionObservationLength →
      a.addTransaction txType d o amount dueDate paidAt now freshID =
        .error .observationTooLong) ∧
    (isBlank o = true →
      a.addTransaction txType d o amount dueDate paidAt now freshID ≠
        .error .observationTooLong) := by
  have hnlen : ¬ byteLen d > maxTransactionDescriptionLength := by omega
  constructor
  · intro hb hrc
    simp [Account.addTransaction, harch, hd, hnlen, hb, hrc]
  · intro hb
    simp only [Account.addTransaction, harch, hd, hnlen, hb]
    simp only [Option.isSome_none, Bool.false_eq_true, if_false,
      Bool.not_true, Bool.false_and, Bool.false_eq_true, if_false]
    split
    · simp
    · split
      · simp
      · split
        · simp
        · split
          · simp
          · simp

/-- Witness for C8 amended: a concrete non-blank observation of 2501 runes
is rejected with the observation-length error. -/
theorem observation_limit_nonblank_witness :
    sampleAccount.addTransaction Income ("x".toList)
      ('y' :: blankObservation) 5 0 none 100 9 =
      .error .observationTooLong :=
  (observation_limit_nonblank sampleAccount Income ("x".toList)
    ('y' :: blankObservation) 5 0 none 100 9 (by decide) (by decide)
    (by decide)).1 (by decide)
    (by simp [runeCount, maxTransactionObservationLength,
      blankObservation_length])

/-- Witness for C3 at a concrete archived account. -/
theorem archived_mutators_fail_witness :
    archivedAccount.addTransaction Income ("x".toList) [] 5 0 none 100 9 =
      .error .accountArchived ∧
    archivedAccount.deleteTransaction 1 = .error .accountArchived ∧
    archivedAccount.markTransactionAsPaid 1 10 100 = .error .accountArchived ∧
    archivedAccount.markTransactionAsUnpaid 1 = .error .accountArchived :=
  archived_mutators_fail archivedAccount 50 (by decide) Income ("x".toList)
    [] 5 0 none 100 9 1 10

end Ledger

namespace LedgerMem

/-- C9 counterexample: the snapshot returned by `Transactions()` shares the
`PaidAt` pointer of the internal transaction (the struct copy copies the
pointer, not the pointed-to cell), so a caller's write through that pointer
changes the account's `RealBalance`. -/
theorem paidAt_pointer_write_leaks :
    (c9Copy.arrays 1).map TxM.paidAt = [some 0] ∧
    realBalanceM c9Copy c9Account 5 = 100 ∧
    realBalanceM (writeTime c9Copy 0 10) c9Account 5 = 0 :=
  ⟨rfl, rfl, rfl⟩

/-- C9 amended: `Transactions()` returns a fresh backing array whose
contents equal the internal ones, and any caller mutation that touches only
the returned array (element writes, field assignments) leaves the internal
transaction list, `RealBalance` and `ProjectedBalance` unchanged; only a
write through a shared `PaidAt` pointer target escapes this frame. -/
theorem snapshot_frame (s : MemState) (a : AccountM) (fresh : Nat)
    (hfresh : fresh ≠ a.txRef) (s' : MemState)
    (harr : ∀ l, l ≠ fresh →
      s'.arrays l = (transactionsCall s a fresh).1.arrays l)
    (htimes : s'.times = (transactionsCall s a fresh).1.times) (now : Int) :
    (transactionsCall s a fresh).1.arrays fresh = s.arrays a.txRef ∧
    s'.arrays a.txRef = s.arrays a.txRef ∧
    realBalanceM s' a now = realBalanceM s a now ∧
    projectedBalanceM s' a = projectedBalanceM s a := by
  have hne : a.txRef ≠ fresh := fun h => hfresh h.symm
  have h1 : (transactionsCall s a fresh).1.arrays fresh = s.arrays a.txRef := by
    simp [transactionsCall]
  have h2 : s'.arrays a.txRef = s.arrays a.txRef := by
    rw [harr _ hne]
    simp [transactionsCall, hne]
  have h3 : s'.times = s.times := by
    rw [htimes]
    simp [transactionsCall]
  refine ⟨h1, h2, ?_, ?_⟩
  · unfold realBalanceM
    rw [h2, h3]
  · unfold projectedBalanceM
    rw [h2]

/-- Witness for C9 amended: overwriting element 0 of the returned slice
leaves the internal array and the real balance unchanged. -/
theorem snapshot_frame_witness :
    c9Mutated.arrays c9Account.txRef = c9Mem.arrays c9Account.txRef ∧
    realBalanceM c9Mutated c9Account 5 = realBalanceM c9Mem c9Account 5 :=
  (fun h => ⟨h.2.1, h.2.2.1⟩)
    (snapshot_frame c9Mem c9Account 1 (by decide) c9Mutated
      (fun l hl => by simp [c9Mutated, writeSliceElem, c9Copy, hl]) rfl 5)

end LedgerMem

namespace Repo

/-- Helper: `Save` coincides with the spec-side description: either the
first failing step's error with an unchanged database, or the committed
pipeline state. -/
theorem save_spec_eq (fail : Oracle) (db : Db) (now : Int) (a : AccountP) :
    Save fail db now a = specSave fail db now a := by
  unfold Save ExecTx specSave specFirstSaveError specCommittedDb
    upsertAccount deleteTransactionsForAccount bulkInsertTransactions
  cases h1 : fail Step.beginTx with
  | some e => rfl
  | none =>
    cases h2 : fail Step.upsert with
    | some e => simp [Bind.bind, Except.bind]
    | none =>
      cases h3 : fail Step.deleteTxs with
      | some e => simp [Bind.bind, Except.bind]
      | none =>
        by_cases he : a.transactions.isEmpty
        · have hnil : a.transactions = [] := List.isEmpty_iff.mp he
          cases h5 : fail Step.commit with
          | some e =>
            simp [Bind.bind, Except.bind, pure, Except.pure, he,
              toAccountPersistence]
          | none =>
            simp [Bind.bind, Except.bind, pure, Except.pure, he, hnil,
              toAccountPersistence]
        · have he' : a.transactions.isEmpty = false := by
            simpa using he
          cases h4 : fail Step.insertTxs with
          | some e =>
            simp [Bind.bind, Except.bind, pure, Except.pure, he',
              toAccountPersistence]
          | none =>
            cases h5 : fail Step.commit with
            | some e =>
              simp [Bind.bind, Except.bind, pure, Except.pure, he',
                toAccountPersistence]
            | none =>
              simp [Bind.bind, Except.bind, pure, Except.pure, he',
                toAccountPersistence]

/-- C5: `Save` is atomic.  For every database state, failure oracle, clock
instant and aggregate, the call either returns the error of the first
failing step (begin, upsert, delete, bulk insert, commit) with the
database unchanged, or succeeds with the account row upserted and the
child rows replaced by the in-memory transaction set — never a partial
state. -/
theorem save_atomic (fail : Oracle) (db : Db) (now : Int) (a : AccountP) :
    Save fail db now a = specSave fail db now a :=
  save_spec_eq fail db now a

/-- Helper: the upsert's conflict branch updates only name, inclusion
flag, archive stamp and updated-at; `user_id` and `created_at` of an
existing row survive, and rows with other ids are untouched. -/
theorem upsertAccountPure_mem (db : Db) (now : Int) (m : AccountModel)
    (r : AccountRow) (hr : r ∈ db.accounts) :
    ∃ r', r' ∈ (upsertAccountPure db now m).accounts ∧ r'.id = r.id ∧
      r'.userID = r.userID ∧ r'.createdAt = r.createdAt ∧
      (r.id ≠ m.id → r' = r) := by
  unfold upsertAccountPure
  by_cases hany : db.accounts.any (fun x => x.id = m.id) = true
  · rw [if_pos hany]
    by_cases hid : r.id = m.id
    · refine ⟨{ r with
          name := m.name,
          includeInOverallBalance := m.includeInOverallBalance,
          archivedAt := m.archivedAt,
          updatedAt := now },
        List.mem_map.mpr ⟨r, hr, by rw [if_pos hid]⟩, rfl, rfl, rfl,
        fun hne => absurd hid hne⟩
    · exact ⟨r, List.mem_map.mpr ⟨r, hr, by rw [if_neg hid]⟩, rfl, rfl, rfl,
        fun _ => rfl⟩
  · rw [if_neg hany]
    exact ⟨r, List.mem_append_left _ hr, rfl, rfl, rfl, fun _ => rfl⟩

/-- C10: for every account row already stored, after any `Save` (failed or
committed) there is a row with the same id whose `user_id` and
`created_at` are unchanged; rows of other accounts are untouched entirely.
The persisted owner of an account is therefore immutable. -/
theorem save_preserves_owner_and_created (fail : Oracle) (db : Db)
    (now : Int) (a : AccountP) (r : AccountRow) (hr : r ∈ db.accounts) :
    ∃ r', r' ∈ (Save fail db now a).2.accounts ∧ r'.id = r.id ∧
      r'.userID = r.userID ∧ r'.createdAt = r.createdAt ∧
      (r.id ≠ a.id → r' = r) := by
  rw [save_spec_eq]
  unfold specSave
  cases specFirstSaveError fail a with
  | some e => exact ⟨r, hr, rfl, rfl, rfl, fun _ => rfl⟩
  | none =>
    have hacc : (specCommittedDb db now a).accounts =
        (upsertAccountPure db now (toAccountPersistence a)).accounts := rfl
    have hmid : (toAccountPersistence a).id = a.id := rfl
    obtain ⟨r', hmem, hid, huid, hcr, hother⟩ :=
      upsertAccountPure_mem db now (toAccountPersistence a) r hr
    exact ⟨r', by rw [hacc]; exact hmem, hid, huid, hcr,
      fun hne => hother (by rw [hmid]; exact hne)⟩

/-- Witness for C10: after saving `c1Account` over a database holding a row
with the same id but owner 2, the stored owner and creation stamp are
unchanged. -/
theorem save_preserves_owner_and_created_witness :
    ∃ r', r' ∈ (Save noFail c10Db 5 c1Account).2.accounts ∧
      r'.id = c10Row.id ∧ r'.userID = c10Row.userID ∧
      r'.createdAt = c10Row.createdAt ∧
      (c10Row.id ≠ c1Account.id → r' = c10Row) :=
  save_preserves_owner_and_created noFail c10Db 5 c1Account c10Row
    (by simp [c10Db])

/-- C4 counterexample: looking up an account owned by someone else returns
the bare not-found sentinel, while looking up an absent account returns the
sentinel wrapped twice; the two observable outcomes differ, so the two runs
are not literally indistinguishable. -/
theorem ownership_vs_absent_distinguishable :
    FindAccountByID c4DbOther 1 10 = .error .accountNotFound ∧
    FindAccountByID emptyDb 1 10 =
      .error (.wrap .failedToFindAccountByID
        (.wrap .failedToFindAccount .accountNotFound)) ∧
    FindAccountByID c4DbOther 1 10 ≠ FindAccountByID emptyDb 1 10 := by
  refine ⟨?_, ?_, ?_⟩ <;> decide

/-- C4 amended: an ownership mismatch is surfaced as exactly the
account-not-found sentinel, and an absent account as a wrapped error whose
unwrap chain reaches the same sentinel: both runs satisfy
`errors.Is(err, ErrAccountNotFound)` and no distinct forbidden error
exists, though the error values differ in wrapping. -/
theorem ownership_mismatch_not_found (db : Db) (u aid : Nat) :
    (∀ m txs, getAccountByID db aid = .ok m → m.userID ≠ u →
      getTransactionsByAccountID db aid = .ok txs →
      FindAccountByID db u aid = .error .accountNotFound) ∧
    (getAccountByID db aid = .error .accountNotFound →
      FindAccountByID db u aid =
        .error (.wrap .failedToFindAccountByID
          (.wrap .failedToFindAccount .accountNotFound)) ∧
      errorsIs (.wrap .failedToFindAccountByID
        (.wrap .failedToFindAccount .accountNotFound)) .accountNotFound =
        true) := by
  constructor
  · intro m txs hm hu htxs
    unfold FindAccountByID FindByID
    rw [hm, htxs]
    simp [toAccountDomain, hu]
  · intro hm
    unfold FindAccountByID FindByID
    rw [hm]
    exact ⟨rfl, by decide⟩

/-- Witness for C4 amended at the two concrete runs. -/
theorem ownership_mismatch_not_found_witness :
    FindAccountByID c4DbOther 1 10 = .error .accountNotFound ∧
    (FindAccountByID emptyDb 1 10 =
      .error (.wrap .failedToFindAccountByID
        (.wrap .failedToFindAccount .accountNotFound)) ∧
     errorsIs (.wrap .failedToFindAccountByID
       (.wrap .failedToFindAccount .accountNotFound)) .accountNotFound =
       true) :=
  ⟨(ownership_mismatch_not_found c4DbOther 1 10).1 c4Model []
      (by decide) (by decide) (by decide),
   (ownership_mismatch_not_found emptyDb 1 10).2 (by decide)⟩

/-- C1: the round-trip `Save(a); FindByID(a.ID)` does not restore all
observable fields.  At this concrete input the save succeeds, yet the
rehydrated account has `IncludeInOverallBalance = false` (the mapper omits
the field) and its transaction's `CategoryID = nil` (the mapper omits the
field), although the saved aggregate had `true` and a category. -/
theorem roundTrip_loses_fields :
    (Save noFail emptyDb 5 c1Account).1 = .ok () ∧
    (FindByID (Save noFail emptyDb 5 c1Account).2 1).map
      (fun b => (b.includeInOverallBalance,
        b.transactions.map (fun tx => tx.categoryID))) =
      .ok (false, [none]) ∧
    c1Account.includeInOverallBalance = true ∧
    c1Account.transactions.map (fun tx => tx.categoryID) = [some 7] := by
  refine ⟨?_, ?_, ?_, ?_⟩ <;> decide

end Repo

end Fintrack
